import Mathlib

/-!
A Lean model of the transcript-analysis core of the callpulse (sentsumapp)
repository, together with theorems about its cache adapter, retry/backoff
logic, batch orchestration, prompt selection, and transcript fetcher.

The model is a shallow embedding of the Python sources:
  - `sentsumapp/utils/prompts.py`   (prompt constants and builders)
  - `sentsumapp/utils/analyzer.py`  (MongoDB cache adapter, single-transcript
    analyzer with retry, batch orchestrator; `analyzer_gemini.py` duplicates
    the same cache/retry/orchestration control flow verbatim, so one model
    covers both backends)
  - `sentsumapp/utils/fetcher.py`   (EarningsCallFetcher.get_last_n_quarters)

External effects are modelled explicitly:
  - the generative-text provider is an oracle `Nat → Except String String`
    mapping the attempt index to either a raised-exception message or a
    returned value (the analysis payload is modelled as a `String`);
  - the MongoDB collection is a list of documents, a document being an
    association list of field names to stored values; `insert_one` appends,
    `find_one` returns the first matching document (first-match-wins);
  - `time.sleep` is recorded as the list of slept durations (in seconds);
  - the wall clock and `datetime.now().isoformat()` of the fetcher are
    passed in as explicit parameters;
  - Python string operations `.replace(".", "-")` and `.upper()` are
    modelled character-wise, and Python truthiness of a result string
    (`if cached_result:`) is modelled by non-emptiness.

Counters for provider calls, cache reads and cache writes are threaded
through the model so that "issues zero provider calls"-style properties
are stated directly.
-/

namespace Callpulse

/-! ## Prompt constants and prompt builders (utils/prompts.py) -/

/-- The SUMMARY_PROMPT constant from utils/prompts.py (verbatim text). -/
def SUMMARY_PROMPT : String :=
  "\nYou are an expert financial analyst specializing in summarizing earnings call transcripts for S&P 500 companies. Your task is to condense lengthy earnings call transcripts into clear, concise, and structured bullet point summaries that capture the essential information investors need.\n\nWhen provided with an earnings call transcript:\n\n1. ANALYZE the transcript and identify:\n   - Key financial results and metrics\n   - Revenue and profit trends\n   - Significant business developments\n   - Strategic initiatives and outlook\n   - Management\x27s forward guidance\n   - Major challenges or risks mentioned\n   - Analyst questions and management responses\n\n2. STRUCTURE your summary with these clear sections:\n   - Period of Earnings Call provided.\n   - Financial Performance Highlights\n   - Business Segment Analysis\n   - Strategic Initiatives & Outlook\n   - Risks & Challenges\n   - Key Analyst Questions & Responses\n\n3. COMPARE current quarter data with:\n   - Previous quarter results\n   - Year-over-year performance\n   - Management\x27s previous guidance\n   - Industry benchmarks when mentioned\n\n4. EMPHASIZE notable trends across the last 4 quarters of earnings data to identify:\n   - Consistent growth or decline patterns\n   - Recurring challenges or successes\n   - Changing management priorities\n   - Evolving market conditions affecting the company\n\n5. FORMAT your output as concise bullet points (not paragraphs) that:\n   - Begin with strong action verbs or key metrics\n   - Prioritize quantitative data over qualitative statements\n   - Highlight percentage changes for key metrics\n   - Use consistent financial terminology\n   - Maintain objectivity without editorializing\n\n6. EXCLUDE:\n   - Standard boilerplate disclaimers\n   - Introductory pleasantries\n   - Technical call details\n   - Verbose explanations\n   - Minor details that don\x27t impact investment decisions\n\nYour summary should allow investors to quickly grasp the company\x27s current financial position, performance trajectory, strategic direction, and potential risks without having to read the entire transcript.\n\nIMPORTANT : Response Should Be in Markdown Format.\n"

/-- The TOPICS_PROMPT constant from utils/prompts.py (verbatim text). -/
def TOPICS_PROMPT : String :=
  "\nYou are a financial analyst specializing in extracting key topics from earnings call.\nFirst identify the Q&A section of this earnings call transcript, then analyze ONLY that section.\nFocus only on the Q&A section of this earnings call transcript in identifying specific business issues, financial metrics, strategic initiatives, and market conditions discussed.\nIdentify the 10 most important topics discussed.\n\nIMPORTANT : GIVE ONLY THE 10 MOST IMPORT TOPICS DISCUSSED. Response Should Be in Markdown Format.\n"

/-- The SENTIMENT_PROMPT constant from utils/prompts.py (verbatim text). -/
def SENTIMENT_PROMPT : String :=
  "\nYou are a specialized financial sentiment analysis AI designed to evaluate earnings call transcripts for S&P 500 companies. Your purpose is to extract meaningful sentiment signals from executive language, analyst questions, and overall discussion tone to provide investors with deeper insights beyond surface-level financial metrics.\n\n## Your Objective\nPerform comprehensive, multi-dimensional sentiment analysis of earnings call content that captures explicit and implicit signals about company performance, management confidence, strategic positioning, and future outlook.\n\n## Analysis Framework\n!!!IMPORTANT : First identify the Q&A section of the given earnings call transcript, then analyze ONLY that section to determine the sentiment.\n\nYour analysis should evaluate sentiment across multiple dimensions:\n\n1. OVERALL SENTIMENT SCORE\n   - Provide a primary sentiment score on a scale from -1.0 (extremely bearish) to +1.0 (extremely bullish) with precision to one decimal place\n   - This score should represent your holistic assessment considering all factors below\n\n2. DIMENSIONAL ANALYSIS\n   Provide sub-scores (-1.0 to +1.0) for each of these critical dimensions:\n\n   a) FINANCIAL PERFORMANCE SENTIMENT\n      - Management\x27s characterization of current financial results\n      - Tone when discussing revenue, margins, profitability, and cash flow\n      - Language used to describe performance relative to expectations\n\n   b) FORWARD GUIDANCE SENTIMENT\n      - Confidence level in stated guidance\n      - Specificity vs. vagueness in outlook statements\n      - Changes in guidance language from previous quarters\n      - Use of hedging language or qualifiers when discussing future periods\n\n   c) MANAGEMENT CONFIDENCE\n      - Executive tone during prepared remarks vs. Q&A responses\n      - Defensive vs. proactive language when addressing challenges\n      - Willingness to provide detailed answers vs. deflection\n      - Body language cues (if transcript notes indicate them)\n\n   d) ANALYST REACTION\n      - Tone and persistence of analyst questions\n      - Follow-up question patterns (drilling deeper vs. moving on)\n      - Expressions of skepticism or confidence from analysts\n\n   e) STRATEGIC DIRECTION\n      - Enthusiasm when discussing long-term initiatives\n      - Clarity and conviction regarding competitive positioning\n      - Transparency about challenges and risk factors\n\n3. LANGUAGE PATTERN ANALYSIS\n   - Identify frequency of positive vs. negative financial terminology\n   - Note changes in communication style compared to previous calls\n   - Detect euphemisms or corporate speak that may mask negative developments\n   - Track qualifying language (\"challenging environment,\" \"temporary setback,\" etc.)\n\n4. CONTEXTUAL FACTORS\n   - Consider industry-specific contextual factors affecting sentiment interpretation\n   - Account for company-specific historical communication patterns\n   - Factor in macroeconomic conditions as context for guidance\n\n## Output Format\n\n1. SENTIMENT SUMMARY\n   - Overall sentiment score: [Score between -1.0 and +1.0]\n   - Executive summary: [4-5 sentence synthesis of key sentiment drivers]\n\n2. DIMENSIONAL SCORES\n   - Financial Performance: [Score] - [Brief explanation with specific examples]\n   - Forward Guidance: [Score] - [Brief explanation with specific examples]\n   - Management Confidence: [Score] - [Brief explanation with specific examples]\n   - Analyst Reaction: [Score] - [Brief explanation with specific examples]\n   - Strategic Direction: [Score] - [Brief explanation with specific examples]\n\n3. KEY SENTIMENT INDICATORS\n   - Provide 3-5 bullet points highlighting the most significant sentiment signals\n   - Include direct quotes that best illustrate the sentiment assessment\n   - Note any disconnects between executive statements and their tone/delivery\n\n4. SENTIMENT SHIFTS\n   - Identify any notable changes in sentiment during different parts of the call\n   - Compare sentiment to previous quarters\x27 calls if contextual information is available\n\n5. CONFIDENCE ASSESSMENT\n   - Rate your confidence in the sentiment analysis (high/medium/low)\n   - Explain factors that might make sentiment interpretation challenging in this case\n"

/-- A transcript record as consumed by the analyzer: the dict fields
`ticker`, `year`, `quarter` that the analyzer reads explicitly, plus
`content`, which stands for the remaining payload of the transcript dict
(transcript text/sections, fetch date); the analyzer only ever passes the
payload through `str(transcript_data)` into the user prompt. -/
structure Transcript where
  ticker : String
  year : Int
  quarter : Int
  content : String
deriving Repr, DecidableEq

/-- Models Python `str(transcript_data)`: a deterministic serialization of
the transcript dict.  The exact rendering is irrelevant to every property
proved below; only the branch structure of the prompt builders matters. -/
def strOfTranscript (td : Transcript) : String :=
  "\x7b\x27ticker\x27: \x27" ++ td.ticker ++ "\x27, \x27year\x27: " ++ toString td.year ++
    ", \x27quarter\x27: " ++ toString td.quarter ++ ", " ++ td.content ++ "\x7d"

/-- `get_user_prompt` from utils/prompts.py.  Python raises
`ValueError(f"Invalid prompt type: {prompt_type}")` on an unknown type;
the raise is modelled as `Except.error` with the same message. -/
def get_user_prompt (prompt_type : String) (transcript_data : Transcript) : Except String String :=
  if prompt_type = "summary" then
    .ok ("##Summarize the Call Transcript given In JSON format::\n\n" ++
      strOfTranscript transcript_data)
  else if prompt_type = "topics" then
    .ok ("First identify the Q&A section of this earnings call transcript, then analyze ONLY that section/" ++
      "Analyze Q&A section and identify the 10 most important and specific topics discussed. " ++
      "Focus on concrete business metrics, specific strategic initiatives, particular challenges, and distinct market trends. " ++
      "Avoid generic topics. Each topic should be a precise aspect that investors would care about. " ++
      "Format your response as a numbered list with each topic being a short phrase (10-20 words).\n\n" ++
      "Call Transcript:\n" ++ strOfTranscript transcript_data)
  else if prompt_type = "sentiment" then
    .ok ("## Given the earning calls transcript analyse:\n\n" ++ strOfTranscript transcript_data)
  else
    .error ("Invalid prompt type: " ++ prompt_type)

/-- `get_system_prompt` from utils/prompts.py; the `ValueError` raise is
modelled as `Except.error` with the same message. -/
def get_system_prompt (prompt_type : String) : Except String String :=
  if prompt_type = "summary" then .ok SUMMARY_PROMPT
  else if prompt_type = "topics" then .ok TOPICS_PROMPT
  else if prompt_type = "sentiment" then .ok SENTIMENT_PROMPT
  else .error ("Invalid prompt type: " ++ prompt_type)

/-! ## Cache store adapter (TranscriptAnalyzer MongoDB methods, utils/analyzer.py) -/

/-- Python `ticker.replace(".", "-")` for the one-character pattern used by
the source, modelled character-wise (this agrees with `str.replace` whenever
the pattern is a single character). -/
def pyReplaceDot (s : String) : String :=
  ⟨s.data.map (fun c => if c = '.' then '-' else c)⟩

/-- Python `ticker.upper()`, modelled character-wise. -/
def pyUpper (s : String) : String :=
  ⟨s.data.map Char.toUpper⟩

/-- A MongoDB document: an association list of field names to stored values.
The analyzer stores analysis results; they are modelled as strings. -/
abbrev MongoDoc := List (String × String)

/-- The `callpulsecollection` collection: a sequence of documents in
insertion order (`insert_one` appends, `find_one` scans from the front). -/
abbrev MongoCollection := List MongoDoc

/-- The composite cache key `f"{ticker}_{year}_Q{quarter}_{analysis_type}"`
computed (after `ticker.replace(".", "-")`) identically by
`get_from_mongodb` and `save_to_mongodb` in utils/analyzer.py. -/
def mongoKey (ticker : String) (year quarter : Int) (analysis_type : String) : String :=
  pyReplaceDot ticker ++ "_" ++ toString year ++ "_Q" ++ toString quarter ++ "_" ++ analysis_type

/-- `TranscriptAnalyzer.get_from_mongodb`: `None` when the collection handle
is `None`; otherwise `find_one({key: {"$exists": True}})` — the first
document carrying the key field — and the value stored under the key.
The source's `try/except` returns `None` on driver errors; the model's
store never fails, so only the success path appears. -/
def get_from_mongodb (coll : Option MongoCollection) (ticker : String) (year quarter : Int)
    (analysis_type : String) : Option String :=
  match coll with
  | none => none
  | some c =>
    let ticker_to_find := mongoKey ticker year quarter analysis_type
    match c.find? (fun d => (d.lookup ticker_to_find).isSome) with
    | some d => d.lookup ticker_to_find
    | none => none

/-- `TranscriptAnalyzer.save_to_mongodb`: `False` when the collection handle
is `None`; otherwise `insert_one({key: data})` — appending a fresh
single-field document — and `True`.  Returns the updated store alongside
the boolean so state can be threaded explicitly. -/
def save_to_mongodb (coll : Option MongoCollection) (ticker : String) (year quarter : Int)
    (analysis_type : String) (data : String) : Bool × Option MongoCollection :=
  match coll with
  | none => (false, none)
  | some c =>
    (true, some (c ++ [[(mongoKey ticker year quarter analysis_type, data)]]))

/-! ## Single-transcript analyzer (TranscriptAnalyzer.analyze_single_transcript) -/

/-- The external-facing result key `f"{ticker}_{year}_Q{quarter}"` built in
`analyze_single_transcript` from the caller-supplied ticker verbatim. -/
def transcriptId (td : Transcript) : String :=
  td.ticker ++ "_" ++ toString td.year ++ "_Q" ++ toString td.quarter

/-- The `mongo_tag` dict lookup of `analyze_single_transcript`:
`{"summary": "SUMMARY", "topics": "TOPIC", "sentiment": "SENTIMENT"}.get(prompt_type, "UNKNOWN")`. -/
def mongoTag (prompt_type : String) : String :=
  if prompt_type = "summary" then "SUMMARY"
  else if prompt_type = "topics" then "TOPIC"
  else if prompt_type = "sentiment" then "SENTIMENT"
  else "UNKNOWN"

/-- Python truthiness of a cached result string (`if cached_result:`):
`None` is handled separately; a string is truthy iff non-empty. -/
def truthy (s : String) : Bool :=
  !(s == "")

/-- Whether `analyze_single_transcript`'s cache check short-circuits: the
collection is configured, the key is found, and the stored value is truthy. -/
def cache_hit (coll : Option MongoCollection) (ticker : String) (year quarter : Int)
    (tag : String) : Bool :=
  match get_from_mongodb coll ticker year quarter tag with
  | some v => truthy v
  | none => false

/-- The provider oracle: the outcome of the backend call at each attempt
index — `.error msg` models the call raising an exception whose `str(e)` is
`msg`, `.ok r` models a successful response with payload `r`.  The oracle
abstracts the OpenAI (`analyzer.py`) and Gemini (`analyzer_gemini.py`)
request code inside the `try` block, both its structured and free-text modes. -/
abbrev Provider := Nat → Except String String

/-- The `for attempt in range(max_retries)` retry loop of
`analyze_single_transcript`, indexed by the current `attempt` and by
`left = max_retries - 1 - attempt`, the number of retries still allowed
(so the Python guard `attempt < max_retries - 1` is the pattern `left + 1`).
Returns (outcome, number of provider calls, list of slept durations);
outcome `.error e` means all attempts raised and `e` is the last `str(e)`,
`.ok r` means some attempt returned `r`. -/
def attemptLoop (provider : Provider) : Nat → Nat → Except String String × Nat × List Nat
  | attempt, left =>
    match provider attempt, left with
    | .ok r, _ => (.ok r, 1, [])
    | .error _, l + 1 =>
      let rest := attemptLoop provider (attempt + 1) l
      (rest.1, rest.2.1 + 1, 2 ^ attempt :: rest.2.2)
    | .error e, 0 => (.error e, 1, [])

/-- The observable outcome of one `analyze_single_transcript` call:
`result` is `.error msg` when the call raises (`ValueError` from the prompt
builders) and `.ok (transcript_id, value)` when it returns, `value` being
either the analysis payload, the cached payload, or the `"ERROR: ..."`
sentinel; the counters record provider calls, cache reads (`find_one`),
cache writes (`insert_one`), the backoff sleeps in order, and the final
state of the cache store. -/
structure AnalyzeOutcome where
  result : Except String (String × String)
  providerCalls : Nat
  cacheReads : Nat
  cacheWrites : Nat
  sleeps : List Nat
  collection : Option MongoCollection
deriving Repr

/-- The `max_retries = 3` constant of `analyze_single_transcript`. -/
def max_retries : Nat := 3

/-- The part of `analyze_single_transcript` after the cache check: build the
prompts (whose `ValueError` propagates), run the retry loop with
`max_retries = 3`, on success write the result to MongoDB when the
collection is configured, on exhaustion return the
`f"ERROR: {str(e)}"` sentinel. -/
def analyzeAfterCache (coll : Option MongoCollection) (reads : Nat) (provider : Provider)
    (td : Transcript) (prompt_type : String) : AnalyzeOutcome :=
  match get_system_prompt prompt_type with
  | .error e => ⟨.error e, 0, reads, 0, [], coll⟩
  | .ok _system_content =>
    match get_user_prompt prompt_type td with
    | .error e => ⟨.error e, 0, reads, 0, [], coll⟩
    | .ok _user_content =>
      match attemptLoop provider 0 (max_retries - 1) with
      | (.ok result, calls, sleeps) =>
        match coll with
        | some _ =>
          let saved := save_to_mongodb coll td.ticker td.year td.quarter (mongoTag prompt_type) result
          ⟨.ok (transcriptId td, result), calls, reads, 1, sleeps, saved.2⟩
        | none => ⟨.ok (transcriptId td, result), calls, reads, 0, sleeps, coll⟩
      | (.error e, calls, sleeps) =>
        ⟨.ok (transcriptId td, "ERROR: " ++ e), calls, reads, 0, sleeps, coll⟩

/-- `TranscriptAnalyzer.analyze_single_transcript`: when the collection is
configured, consult the cache first (`if cached_result: return ...` —
Python truthiness); otherwise, or on a miss or falsy cached value, fall
through to the provider path with retry. -/
def analyze_single_transcript (coll : Option MongoCollection) (provider : Provider)
    (td : Transcript) (prompt_type : String) : AnalyzeOutcome :=
  match coll with
  | none => analyzeAfterCache none 0 provider td prompt_type
  | some _ =>
    match get_from_mongodb coll td.ticker td.year td.quarter (mongoTag prompt_type) with
    | some v =>
      if truthy v then ⟨.ok (transcriptId td, v), 0, 1, 0, [], coll⟩
      else analyzeAfterCache coll 1 provider td prompt_type
    | none => analyzeAfterCache coll 1 provider td prompt_type

/-! ## Batch orchestrator (TranscriptAnalyzer.analyze_transcripts) -/

/-- Python `dict(...)` insertion of one key/value pair: overwrite the value
in place when the key is already present, append otherwise. -/
def dictInsert (m : List (String × String)) (k v : String) : List (String × String) :=
  match m with
  | [] => [(k, v)]
  | (k', v') :: rest => if k' = k then (k, v) :: rest else (k', v') :: dictInsert rest k v

/-- Python `dict(results)` over a list of (key, value) tuples: keys in
first-occurrence order, later duplicates overwriting earlier values. -/
def dictOf (l : List (String × String)) : List (String × String) :=
  l.foldl (fun m kv => dictInsert m kv.1 kv.2) []

/-- The observable outcome of one `analyze_transcripts` call: the result
mapping (or the first worker exception, which joblib re-raises), the
aggregated counters, and the final cache store. -/
structure BatchOutcome where
  result : Except String (List (String × String))
  providerCalls : Nat
  cacheReads : Nat
  cacheWrites : Nat
  collection : Option MongoCollection
deriving Repr

/-- The fan-out of `analyze_transcripts` over the transcript list.  The
source runs the per-transcript analyses on a thread pool sharing
`self.collection`; the model serializes them in list order, threading the
cache store through — the properties proved below (result keys, counters
on the all-miss/no-cache paths) are schedule-independent.  The provider
oracle is per transcript and per attempt. -/
def batchLoop (provider : Transcript → Provider) (prompt_type : String) :
    Option MongoCollection → List Transcript →
    Except String (List (String × String)) × Nat × Nat × Nat × Option MongoCollection
  | coll, [] => (.ok [], 0, 0, 0, coll)
  | coll, td :: rest =>
    let o := analyze_single_transcript coll (provider td) td prompt_type
    match o.result with
    | .error e => (.error e, o.providerCalls, o.cacheReads, o.cacheWrites, o.collection)
    | .ok pr =>
      let r := batchLoop provider prompt_type o.collection rest
      match r.1 with
      | .error e =>
        (.error e, o.providerCalls + r.2.1, o.cacheReads + r.2.2.1,
          o.cacheWrites + r.2.2.2.1, r.2.2.2.2)
      | .ok prs =>
        (.ok (pr :: prs), o.providerCalls + r.2.1, o.cacheReads + r.2.2.1,
          o.cacheWrites + r.2.2.2.1, r.2.2.2.2)

/-- `TranscriptAnalyzer.analyze_transcripts`: empty input returns `{}`
before any work; otherwise every transcript is analyzed and
`dict(results)` is returned.  `n_jobs` (the joblib parallelism degree)
does not affect the functional outcome and is kept only for signature
fidelity. -/
def analyze_transcripts (coll : Option MongoCollection) (provider : Transcript → Provider)
    (transcript_data_list : List Transcript) (prompt_type : String) (_n_jobs : Nat) :
    BatchOutcome :=
  if transcript_data_list.isEmpty then ⟨.ok [], 0, 0, 0, coll⟩
  else
    let r := batchLoop provider prompt_type coll transcript_data_list
    ⟨r.1.map dictOf, r.2.1, r.2.2.1, r.2.2.2.1, r.2.2.2.2⟩

/-! ## Transcript fetcher (EarningsCallFetcher.get_last_n_quarters, utils/fetcher.py) -/

/-- A value stored in a fetched-transcript dict: a string or an int field. -/
inductive FVal where
  | s (v : String)
  | i (v : Int)
deriving Repr, DecidableEq

/-- A fetched-transcript dict, as returned by the transcript API / file
cache and annotated by `get_last_n_quarters`. -/
abbrev FDict := List (String × FVal)

/-- Python dict assignment `data[k] = v`: replace the value in place when
the key is present, append otherwise. -/
def dset (d : FDict) (k : String) (v : FVal) : FDict :=
  match d with
  | [] => [(k, v)]
  | (k', v') :: rest => if k' = k then (k, v) :: rest else (k', v') :: dset rest k v

/-- The `while quarter <= 0: year -= 1; quarter += 4` normalization inside
`get_last_n_quarters`. -/
def adjustYQ (year quarter : Int) : Int × Int :=
  if quarter ≤ 0 then adjustYQ (year - 1) (quarter + 4) else (year, quarter)
termination_by (1 - quarter).toNat
decreasing_by omega

/-- The fetch oracle abstracting `EarningsCallFetcher.get_transcript`
(file cache plus HTTP API): ticker, year, quarter to the `(success, data)`
pair the source inspects. -/
abbrev Fetch := String → Int → Int → Bool × FDict

/-- The `while quarters_found < n and attempts < n * 2` loop of
`get_last_n_quarters`, made structural on `fuel = n * 2 - attempts` (so the
guard `attempts < n * 2` is the pattern `fuel + 1`); `fetch_now` stands for
`datetime.now().isoformat()`.  Returns the collected records together with
the final number of fetch attempts. -/
def lastNLoop (fetch : Fetch) (ticker fetch_now : String) (current_year current_quarter : Int)
    (n : Nat) : Nat → Nat → List FDict → Nat → List FDict × Nat
  | attempts, _quarters_found, results, 0 => (results, attempts)
  | attempts, quarters_found, results, fuel + 1 =>
    if quarters_found < n then
      let yq := adjustYQ current_year (current_quarter - attempts)
      let fr := fetch ticker yq.1 yq.2
      if fr.1 && (fr.2.lookup "error").isNone then
        let d := dset (dset (dset (dset fr.2 "ticker" (.s ticker)) "year" (.i yq.1))
          "quarter" (.i yq.2)) "fetch_date" (.s fetch_now)
        lastNLoop fetch ticker fetch_now current_year current_quarter n
          (attempts + 1) (quarters_found + 1) (results ++ [d]) fuel
      else
        lastNLoop fetch ticker fetch_now current_year current_quarter n
          (attempts + 1) quarters_found results fuel
    else (results, attempts)

/-- `EarningsCallFetcher.get_last_n_quarters`: uppercase the ticker, then
walk backward from the current calendar quarter (passed in explicitly,
since the source reads the wall clock), collecting up to `n` successfully
fetched, error-free records, each annotated with ticker, year, quarter and
fetch date; give up after `n * 2` attempts. -/
def get_last_n_quarters (fetch : Fetch) (ticker : String) (n : Nat)
    (current_year current_quarter : Int) (fetch_now : String) : List FDict × Nat :=
  lastNLoop fetch (pyUpper ticker) fetch_now current_year current_quarter n 0 0 [] (n * 2)


/-- Specification predicate for one record returned by
`get_last_n_quarters` (ticker already uppercased): the record carries the
ticker and fetch-date annotations, and it originates from a successful,
error-free fetch of some (year, quarter), whose values it carries in its
`year` and `quarter` fields. -/
def FetchedRecordOk (fetch : Fetch) (ticker fetch_now : String) (d : FDict) : Prop :=
  d.lookup "ticker" = some (.s ticker) ∧
  d.lookup "fetch_date" = some (.s fetch_now) ∧
  ∃ (year quarter : Int) (raw : FDict),
    fetch ticker year quarter = (true, raw) ∧
    raw.lookup "error" = none ∧
    d.lookup "year" = some (.i year) ∧
    d.lookup "quarter" = some (.i quarter)

/-! ## Helper lemmas -/

lemma attemptLoop_all_error (provider : Provider) (es : Nat → String)
    (h : ∀ i, provider i = .error (es i)) :
    attemptLoop provider 0 2 = (.error (es 2), 3, [1, 2]) := by
  simp [attemptLoop, h 0, h 1, h 2]

lemma get_system_prompt_valid (pt : String)
    (hpt : pt = "summary" ∨ pt = "topics" ∨ pt = "sentiment") :
    ∃ s, get_system_prompt pt = .ok s := by
  rcases hpt with rfl | rfl | rfl <;> exact ⟨_, rfl⟩

lemma get_user_prompt_valid (pt : String) (td : Transcript)
    (hpt : pt = "summary" ∨ pt = "topics" ∨ pt = "sentiment") :
    ∃ u, get_user_prompt pt td = .ok u := by
  rcases hpt with rfl | rfl | rfl <;> exact ⟨_, rfl⟩

lemma analyzeAfterCache_all_error (coll : Option MongoCollection) (reads : Nat)
    (provider : Provider) (td : Transcript) (pt : String) (es : Nat → String)
    (hpt : pt = "summary" ∨ pt = "topics" ∨ pt = "sentiment")
    (h : ∀ i, provider i = .error (es i)) :
    analyzeAfterCache coll reads provider td pt =
      ⟨.ok (transcriptId td, "ERROR: " ++ es 2), 3, reads, 0, [1, 2], coll⟩ := by
  obtain ⟨s, hs⟩ := get_system_prompt_valid pt hpt
  obtain ⟨u, hu⟩ := get_user_prompt_valid pt td hpt
  simp [analyzeAfterCache, hs, hu, max_retries, attemptLoop_all_error provider es h]

lemma analyzeAfterCache_cacheReads (coll : Option MongoCollection) (reads : Nat)
    (provider : Provider) (td : Transcript) (pt : String) :
    (analyzeAfterCache coll reads provider td pt).cacheReads = reads := by
  unfold analyzeAfterCache
  repeat' split <;> try rfl

lemma analyzeAfterCache_none_writes (reads : Nat) (provider : Provider)
    (td : Transcript) (pt : String) :
    (analyzeAfterCache none reads provider td pt).cacheWrites = 0 := by
  unfold analyzeAfterCache
  repeat' split <;> try rfl

lemma analyzeAfterCache_result_ok (coll : Option MongoCollection) (reads : Nat)
    (provider : Provider) (td : Transcript) (pt : String)
    (hpt : pt = "summary" ∨ pt = "topics" ∨ pt = "sentiment") :
    ∃ v, (analyzeAfterCache coll reads provider td pt).result = .ok (transcriptId td, v) := by
  obtain ⟨s, hs⟩ := get_system_prompt_valid pt hpt
  obtain ⟨u, hu⟩ := get_user_prompt_valid pt td hpt
  unfold analyzeAfterCache
  rw [hs, hu]
  rcases attemptLoop provider 0 (max_retries - 1) with ⟨r, calls, sleeps⟩
  cases r <;> cases coll <;> exact ⟨_, rfl⟩

lemma analyze_single_hit (c : MongoCollection) (provider : Provider) (td : Transcript)
    (pt : String) (v : String)
    (hget : get_from_mongodb (some c) td.ticker td.year td.quarter (mongoTag pt) = some v)
    (ht : truthy v = true) :
    analyze_single_transcript (some c) provider td pt =
      ⟨.ok (transcriptId td, v), 0, 1, 0, [], some c⟩ := by
  unfold analyze_single_transcript
  rw [hget]
  exact if_pos ht

lemma analyze_single_eq_afterCache (c : MongoCollection) (provider : Provider)
    (td : Transcript) (pt : String)
    (hmiss : cache_hit (some c) td.ticker td.year td.quarter (mongoTag pt) = false) :
    analyze_single_transcript (some c) provider td pt =
      analyzeAfterCache (some c) 1 provider td pt := by
  unfold analyze_single_transcript
  unfold cache_hit at hmiss
  cases hget : get_from_mongodb (some c) td.ticker td.year td.quarter (mongoTag pt) with
  | none => rfl
  | some v =>
    rw [hget] at hmiss
    have hm : truthy v = false := hmiss
    exact if_neg (by simp [hm])

lemma analyze_single_result_ok (coll : Option MongoCollection) (provider : Provider)
    (td : Transcript) (pt : String)
    (hpt : pt = "summary" ∨ pt = "topics" ∨ pt = "sentiment") :
    ∃ v, (analyze_single_transcript coll provider td pt).result = .ok (transcriptId td, v) := by
  cases coll with
  | none => exact analyzeAfterCache_result_ok none 0 provider td pt hpt
  | some c =>
    cases hget : get_from_mongodb (some c) td.ticker td.year td.quarter (mongoTag pt) with
    | none =>
      rw [analyze_single_eq_afterCache c provider td pt (by simp [cache_hit, hget])]
      exact analyzeAfterCache_result_ok (some c) 1 provider td pt hpt
    | some v =>
      by_cases ht : truthy v = true
      · rw [analyze_single_hit c provider td pt v hget ht]
        exact ⟨v, rfl⟩
      · rw [analyze_single_eq_afterCache c provider td pt (by simp [cache_hit, hget, ht])]
        exact analyzeAfterCache_result_ok (some c) 1 provider td pt hpt

lemma analyzeAfterCache_fst (coll : Option MongoCollection) (reads : Nat)
    (provider : Provider) (td : Transcript) (pt : String) (k v : String)
    (h : (analyzeAfterCache coll reads provider td pt).result = .ok (k, v)) :
    k = transcriptId td := by
  unfold analyzeAfterCache at h
  rcases hs : get_system_prompt pt with e | s <;> rw [hs] at h
  · simp at h
  · rcases hu : get_user_prompt pt td with e' | u <;> rw [hu] at h
    · simp at h
    · rcases hA : attemptLoop provider 0 (max_retries - 1) with ⟨r, calls, sleeps⟩
      rw [hA] at h
      cases r <;> cases coll <;> simp at h <;> exact h.1.symm

lemma analyze_single_fst (coll : Option MongoCollection) (provider : Provider)
    (td : Transcript) (pt : String) (k v : String)
    (h : (analyze_single_transcript coll provider td pt).result = .ok (k, v)) :
    k = transcriptId td := by
  cases coll with
  | none => exact analyzeAfterCache_fst none 0 provider td pt k v h
  | some c =>
    cases hget : get_from_mongodb (some c) td.ticker td.year td.quarter (mongoTag pt) with
    | none =>
      rw [analyze_single_eq_afterCache c provider td pt (by simp [cache_hit, hget])] at h
      exact analyzeAfterCache_fst (some c) 1 provider td pt k v h
    | some w =>
      by_cases ht : truthy w = true
      · rw [analyze_single_hit c provider td pt w hget ht] at h
        simp at h
        exact h.1.symm
      · rw [analyze_single_eq_afterCache c provider td pt (by simp [cache_hit, hget, ht])] at h
        exact analyzeAfterCache_fst (some c) 1 provider td pt k v h

/-! ## Claim theorems -/

/-- C1: on a cache miss with every provider attempt raising,
`analyze_single_transcript` makes exactly 3 provider attempts, sleeps
2^attempt seconds between consecutive attempts (1s then 2s), and returns
the pair `(transcript_id, "ERROR: <last failure detail>")` instead of
propagating an exception. -/
theorem C1_retry_exhaustion (coll : Option MongoCollection) (provider : Provider)
    (td : Transcript) (prompt_type : String) (es : Nat → String)
    (hpt : prompt_type = "summary" ∨ prompt_type = "topics" ∨ prompt_type = "sentiment")
    (hmiss : cache_hit coll td.ticker td.year td.quarter (mongoTag prompt_type) = false)
    (hfail : ∀ i, provider i = .error (es i)) :
    (analyze_single_transcript coll provider td prompt_type).result =
      .ok (transcriptId td, "ERROR: " ++ es 2) ∧
    (analyze_single_transcript coll provider td prompt_type).providerCalls = 3 ∧
    (analyze_single_transcript coll provider td prompt_type).sleeps = [1, 2] := by
  obtain ⟨r, hr⟩ : ∃ r, analyze_single_transcript coll provider td prompt_type =
      ⟨.ok (transcriptId td, "ERROR: " ++ es 2), 3, r, 0, [1, 2], coll⟩ := by
    cases coll with
    | none => exact ⟨0, analyzeAfterCache_all_error none 0 provider td prompt_type es hpt hfail⟩
    | some c =>
      rw [analyze_single_eq_afterCache c provider td prompt_type hmiss]
      exact ⟨1, analyzeAfterCache_all_error (some c) 1 provider td prompt_type es hpt hfail⟩
  rw [hr]
  exact ⟨rfl, rfl, rfl⟩

/-- C1 witness: a concrete instantiation of `C1_retry_exhaustion` with no
cache and a provider that raises "boom" on every attempt. -/
theorem C1_retry_exhaustion_witness :
    (analyze_single_transcript none (fun _ => .error "boom")
      ⟨"AAPL", 2024, 1, "body"⟩ "summary").result = .ok ("AAPL_2024_Q1", "ERROR: boom") ∧
    (analyze_single_transcript none (fun _ => .error "boom")
      ⟨"AAPL", 2024, 1, "body"⟩ "summary").providerCalls = 3 ∧
    (analyze_single_transcript none (fun _ => .error "boom")
      ⟨"AAPL", 2024, 1, "body"⟩ "summary").sleeps = [1, 2] :=
  C1_retry_exhaustion none (fun _ => .error "boom") ⟨"AAPL", 2024, 1, "body"⟩ "summary"
    (fun _ => "boom") (Or.inl rfl) rfl (fun _ => rfl)

/-- C3 counterexample: the cache key is present in the store (with the
empty string as stored value, which Python's `if cached_result:` treats as
falsy), yet `analyze_single_transcript` issues a provider call and returns
the fresh provider value, not the cached one. -/
theorem C3_counterexample :
    mongoKey "AAPL" 2024 1 "SUMMARY" = "AAPL_2024_Q1_SUMMARY" ∧
    get_from_mongodb (some [[("AAPL_2024_Q1_SUMMARY", "")]]) "AAPL" 2024 1 "SUMMARY" = some "" ∧
    (analyze_single_transcript (some [[("AAPL_2024_Q1_SUMMARY", "")]])
      (fun _ => .ok "fresh") ⟨"AAPL", 2024, 1, ""⟩ "summary").providerCalls = 1 ∧
    (analyze_single_transcript (some [[("AAPL_2024_Q1_SUMMARY", "")]])
      (fun _ => .ok "fresh") ⟨"AAPL", 2024, 1, ""⟩ "summary").result =
      .ok ("AAPL_2024_Q1", "fresh") :=
  ⟨by decide, rfl, rfl, rfl⟩

/-- C3 amended: whenever the computed cache key is present in the store
with a truthy (non-empty) cached value, `analyze_single_transcript`
returns the cached value and issues zero provider calls and zero cache
writes for that transcript. -/
theorem C3_cache_hit_skips_provider (coll : Option MongoCollection) (provider : Provider)
    (td : Transcript) (prompt_type : String) (v : String)
    (hfound : get_from_mongodb coll td.ticker td.year td.quarter (mongoTag prompt_type) = some v)
    (htruthy : truthy v = true) :
    (analyze_single_transcript coll provider td prompt_type).result = .ok (transcriptId td, v) ∧
    (analyze_single_transcript coll provider td prompt_type).providerCalls = 0 ∧
    (analyze_single_transcript coll provider td prompt_type).cacheWrites = 0 := by
  cases coll with
  | none => simp [get_from_mongodb] at hfound
  | some c => simp [analyze_single_transcript, hfound, htruthy]

/-- C3 witness: a concrete cache hit through `C3_cache_hit_skips_provider`. -/
theorem C3_cache_hit_skips_provider_witness :
    (analyze_single_transcript (some [[("AAPL_2024_Q1_SUMMARY", "good")]])
      (fun _ => .ok "fresh") ⟨"AAPL", 2024, 1, ""⟩ "summary").result =
      .ok ("AAPL_2024_Q1", "good") ∧
    (analyze_single_transcript (some [[("AAPL_2024_Q1_SUMMARY", "good")]])
      (fun _ => .ok "fresh") ⟨"AAPL", 2024, 1, ""⟩ "summary").providerCalls = 0 ∧
    (analyze_single_transcript (some [[("AAPL_2024_Q1_SUMMARY", "good")]])
      (fun _ => .ok "fresh") ⟨"AAPL", 2024, 1, ""⟩ "summary").cacheWrites = 0 :=
  C3_cache_hit_skips_provider (some [[("AAPL_2024_Q1_SUMMARY", "good")]])
    (fun _ => .ok "fresh") ⟨"AAPL", 2024, 1, ""⟩ "summary" "good" rfl rfl

/-- C4: `analyze_transcripts` on an empty transcript list returns the
empty mapping, issues zero provider calls, zero cache reads and zero
cache writes, and leaves the cache store untouched, for every analysis
kind and every concurrency setting. -/
theorem C4_empty_batch (coll : Option MongoCollection) (provider : Transcript → Provider)
    (prompt_type : String) (n_jobs : Nat) :
    analyze_transcripts coll provider [] prompt_type n_jobs = ⟨.ok [], 0, 0, 0, coll⟩ := rfl

/-- C5: writing a cache entry and reading it back with the same
(ticker, year, quarter, tag) on a store previously empty for that key
succeeds and returns the written value, and the cache keys for tickers
"BRK.B" and "BRK-B" coincide (period-to-hyphen normalization). -/
theorem C5_roundtrip_and_key_normalization (c : MongoCollection) (ticker : String)
    (year quarter : Int) (tag v : String)
    (hfresh : ∀ d ∈ c, d.lookup (mongoKey ticker year quarter tag) = none) :
    (save_to_mongodb (some c) ticker year quarter tag v).1 = true ∧
    get_from_mongodb (save_to_mongodb (some c) ticker year quarter tag v).2
      ticker year quarter tag = some v ∧
    ∀ (y q : Int) (t : String), mongoKey "BRK.B" y q t = mongoKey "BRK-B" y q t := by
  refine ⟨rfl, ?_, ?_⟩
  · show (match (c ++ [[(mongoKey ticker year quarter tag, v)]]).find?
        (fun d => (d.lookup (mongoKey ticker year quarter tag)).isSome) with
      | some d => d.lookup (mongoKey ticker year quarter tag)
      | none => none) = some v
    have h1 : c.find? (fun d => (d.lookup (mongoKey ticker year quarter tag)).isSome) = none :=
      List.find?_eq_none.2 (fun d hd => by simp [hfresh d hd])
    rw [List.find?_append, h1]
    simp [List.lookup]
  · intro y q t
    have e : pyReplaceDot "BRK.B" = pyReplaceDot "BRK-B" := by decide
    unfold mongoKey
    rw [e]

/-- C5 witness: round-trip on the empty store for ticker "BRK.B", plus the
key coincidence at (2024, Q1, SUMMARY). -/
theorem C5_roundtrip_witness :
    (save_to_mongodb (some []) "BRK.B" 2024 1 "SUMMARY" "val").1 = true ∧
    get_from_mongodb (save_to_mongodb (some []) "BRK.B" 2024 1 "SUMMARY" "val").2
      "BRK.B" 2024 1 "SUMMARY" = some "val" ∧
    ∀ (y q : Int) (t : String), mongoKey "BRK.B" y q t = mongoKey "BRK-B" y q t :=
  C5_roundtrip_and_key_normalization [] "BRK.B" 2024 1 "SUMMARY" "val" (by simp)

/-- C6: with no collection handle configured, `get_from_mongodb` always
misses, `save_to_mongodb` always returns `False`, and the analyzer
performs zero cache reads and zero cache writes — an always-miss, no-op
cache. -/
theorem C6_unconfigured_cache (ticker : String) (year quarter : Int) (tag data : String)
    (provider : Provider) (td : Transcript) (prompt_type : String) :
    get_from_mongodb none ticker year quarter tag = none ∧
    save_to_mongodb none ticker year quarter tag data = (false, none) ∧
    (analyze_single_transcript none provider td prompt_type).cacheReads = 0 ∧
    (analyze_single_transcript none provider td prompt_type).cacheWrites = 0 :=
  ⟨rfl, rfl, analyzeAfterCache_cacheReads none 0 provider td prompt_type,
    analyzeAfterCache_none_writes 0 provider td prompt_type⟩

/-- C7: for a prompt type outside summary/topics/sentiment, both prompt
builders raise `ValueError("Invalid prompt type: ...")`, and (on a cache
miss or with no cache configured) `analyze_single_transcript` propagates
that exception with zero provider calls and zero sleeps rather than
returning a sentinel result; for the three recognized kinds the builders
succeed. -/
theorem C7_invalid_kind_raises (prompt_type : String) (td : Transcript)
    (coll : Option MongoCollection) (provider : Provider)
    (hpt : ¬(prompt_type = "summary" ∨ prompt_type = "topics" ∨ prompt_type = "sentiment"))
    (hmiss : cache_hit coll td.ticker td.year td.quarter (mongoTag prompt_type) = false) :
    get_system_prompt prompt_type = .error ("Invalid prompt type: " ++ prompt_type) ∧
    get_user_prompt prompt_type td = .error ("Invalid prompt type: " ++ prompt_type) ∧
    (analyze_single_transcript coll provider td prompt_type).result =
      .error ("Invalid prompt type: " ++ prompt_type) ∧
    (analyze_single_transcript coll provider td prompt_type).providerCalls = 0 ∧
    (analyze_single_transcript coll provider td prompt_type).sleeps = [] ∧
    ∀ pt', pt' = "summary" ∨ pt' = "topics" ∨ pt' = "sentiment" →
      (∃ s, get_system_prompt pt' = .ok s) ∧ ∃ u, get_user_prompt pt' td = .ok u := by
  push_neg at hpt
  obtain ⟨h1, h2, h3⟩ := hpt
  have hs : get_system_prompt prompt_type = .error ("Invalid prompt type: " ++ prompt_type) := by
    simp [get_system_prompt, h1, h2, h3]
  have hu : get_user_prompt prompt_type td = .error ("Invalid prompt type: " ++ prompt_type) := by
    simp [get_user_prompt, h1, h2, h3]
  have hac : ∀ reads, analyzeAfterCache coll reads provider td prompt_type =
      ⟨.error ("Invalid prompt type: " ++ prompt_type), 0, reads, 0, [], coll⟩ := by
    intro reads
    unfold analyzeAfterCache
    rw [hs]
  obtain ⟨r, hr⟩ : ∃ r, analyze_single_transcript coll provider td prompt_type =
      ⟨.error ("Invalid prompt type: " ++ prompt_type), 0, r, 0, [], coll⟩ := by
    cases coll with
    | none => exact ⟨0, hac 0⟩
    | some c =>
      rw [analyze_single_eq_afterCache c provider td prompt_type hmiss]
      exact ⟨1, hac 1⟩
  refine ⟨hs, hu, by rw [hr], by rw [hr], by rw [hr], ?_⟩
  rintro pt' (rfl | rfl | rfl) <;> exact ⟨⟨_, rfl⟩, ⟨_, rfl⟩⟩

/-- C7 witness: `C7_invalid_kind_raises` at the unrecognized prompt type
"foo" with no cache configured. -/
theorem C7_invalid_kind_raises_witness :
    get_system_prompt "foo" = .error ("Invalid prompt type: " ++ "foo") ∧
    get_user_prompt "foo" ⟨"AAPL", 2024, 1, ""⟩ = .error ("Invalid prompt type: " ++ "foo") ∧
    (analyze_single_transcript none (fun _ => .ok "x") ⟨"AAPL", 2024, 1, ""⟩ "foo").result =
      .error ("Invalid prompt type: " ++ "foo") ∧
    (analyze_single_transcript none (fun _ => .ok "x") ⟨"AAPL", 2024, 1, ""⟩ "foo").providerCalls = 0 ∧
    (analyze_single_transcript none (fun _ => .ok "x") ⟨"AAPL", 2024, 1, ""⟩ "foo").sleeps = [] ∧
    ∀ pt', pt' = "summary" ∨ pt' = "topics" ∨ pt' = "sentiment" →
      (∃ s, get_system_prompt pt' = .ok s) ∧
        ∃ u, get_user_prompt pt' ⟨"AAPL", 2024, 1, ""⟩ = .ok u :=
  C7_invalid_kind_raises "foo" ⟨"AAPL", 2024, 1, ""⟩ none (fun _ => .ok "x") (by decide) rfl

/-- C10: the result-mapping key returned by `analyze_single_transcript` is
built from the caller-supplied ticker verbatim (no period replacement, no
uppercasing), while the cache key normalizes periods to hyphens; hence
"BRK.B" and "BRK-B" share one cache key yet have distinct TranscriptIds. -/
theorem C10_result_key_verbatim :
    (∀ (coll : Option MongoCollection) (provider : Provider) (td : Transcript)
      (prompt_type : String) (k v : String),
      (analyze_single_transcript coll provider td prompt_type).result = .ok (k, v) →
      k = td.ticker ++ "_" ++ toString td.year ++ "_Q" ++ toString td.quarter) ∧
    (∀ (y q : Int) (t : String), mongoKey "BRK.B" y q t = mongoKey "BRK-B" y q t) ∧
    transcriptId ⟨"BRK.B", 2024, 1, ""⟩ ≠ transcriptId ⟨"BRK-B", 2024, 1, ""⟩ := by
  refine ⟨?_, ?_, by decide⟩
  · exact fun coll provider td pt k v h => analyze_single_fst coll provider td pt k v h
  · intro y q t
    have e : pyReplaceDot "BRK.B" = pyReplaceDot "BRK-B" := by decide
    unfold mongoKey
    rw [e]

/-- C10 witness: the key returned for ticker "BRK.B" is the verbatim
concatenation, its cache key equals that of "BRK-B", and the two
TranscriptIds differ. -/
theorem C10_result_key_verbatim_witness :
    "BRK.B_2024_Q1" = "BRK.B" ++ "_" ++ toString (2024 : Int) ++ "_Q" ++ toString (1 : Int) ∧
    mongoKey "BRK.B" 2024 1 "SUMMARY" = mongoKey "BRK-B" 2024 1 "SUMMARY" ∧
    transcriptId ⟨"BRK.B", 2024, 1, ""⟩ ≠ transcriptId ⟨"BRK-B", 2024, 1, ""⟩ :=
  ⟨C10_result_key_verbatim.1 none (fun _ => .ok "v") ⟨"BRK.B", 2024, 1, ""⟩ "summary"
      "BRK.B_2024_Q1" "v" rfl,
    C10_result_key_verbatim.2.1 2024 1 "SUMMARY",
    C10_result_key_verbatim.2.2⟩


/-! ## Dictionary-construction lemmas (Python `dict(results)`) -/

lemma keys_dictInsert_of_mem (m : List (String × String)) (k v : String)
    (h : k ∈ m.map Prod.fst) : (dictInsert m k v).map Prod.fst = m.map Prod.fst := by
  induction m with
  | nil => simp at h
  | cons p rest ih =>
    obtain ⟨k', v'⟩ := p
    by_cases hk : k' = k
    · simp [dictInsert, hk]
    · have hmem : k ∈ rest.map Prod.fst := by
        rcases List.mem_cons.mp h with h' | h'
        · exact absurd h'.symm hk
        · exact h'
      simp [dictInsert, hk, ih hmem]

lemma dictInsert_eq_append (m : List (String × String)) (k v : String)
    (h : k ∉ m.map Prod.fst) : dictInsert m k v = m ++ [(k, v)] := by
  induction m with
  | nil => rfl
  | cons p rest ih =>
    obtain ⟨k', v'⟩ := p
    have hk : ¬ k' = k := by rintro rfl; exact h (by simp)
    have hrest : k ∉ rest.map Prod.fst := fun hm => h (by simp [hm])
    simp [dictInsert, hk, ih hrest]

lemma mem_keys_dictInsert (m : List (String × String)) (k v k0 : String) :
    k0 ∈ (dictInsert m k v).map Prod.fst ↔ k0 ∈ m.map Prod.fst ∨ k0 = k := by
  induction m with
  | nil => simp [dictInsert]
  | cons p rest ih =>
    obtain ⟨k', v'⟩ := p
    by_cases hk : k' = k <;> simp [dictInsert, hk, ih] <;> tauto

lemma nodup_keys_dictInsert (m : List (String × String)) (k v : String)
    (h : (m.map Prod.fst).Nodup) : ((dictInsert m k v).map Prod.fst).Nodup := by
  by_cases hk : k ∈ m.map Prod.fst
  · rw [keys_dictInsert_of_mem m k v hk]; exact h
  · rw [dictInsert_eq_append m k v hk]
    simp only [List.map_append, List.map_cons, List.map_nil, List.nodup_append]
    exact ⟨h, List.nodup_singleton k, fun a ha hb => hk ((List.mem_singleton.mp hb) ▸ ha)⟩

lemma foldl_dictInsert_keys_mem (l : List (String × String)) :
    ∀ (m : List (String × String)) (k0 : String),
      k0 ∈ ((l.foldl (fun m kv => dictInsert m kv.1 kv.2) m).map Prod.fst) ↔
        k0 ∈ m.map Prod.fst ∨ k0 ∈ l.map Prod.fst := by
  induction l with
  | nil => simp
  | cons p rest ih =>
    intro m k0
    obtain ⟨k, v⟩ := p
    simp only [List.foldl_cons]
    rw [ih]
    rw [mem_keys_dictInsert]
    simp
    tauto

lemma foldl_dictInsert_keys_nodup (l : List (String × String)) :
    ∀ (m : List (String × String)), (m.map Prod.fst).Nodup →
      (((l.foldl (fun m kv => dictInsert m kv.1 kv.2) m)).map Prod.fst).Nodup := by
  induction l with
  | nil => intro m h; simpa using h
  | cons p rest ih =>
    intro m h
    obtain ⟨k, v⟩ := p
    simp only [List.foldl_cons]
    exact ih (dictInsert m k v) (nodup_keys_dictInsert m k v h)

lemma foldl_dictInsert_eq_append (l : List (String × String)) :
    ∀ (m : List (String × String)), (m.map Prod.fst ++ l.map Prod.fst).Nodup →
      l.foldl (fun m kv => dictInsert m kv.1 kv.2) m = m ++ l := by
  induction l with
  | nil => intro m _; simp
  | cons p rest ih =>
    intro m h
    obtain ⟨k, v⟩ := p
    have h' := h
    rw [List.nodup_append] at h'
    obtain ⟨h1, h2, h3⟩ := h'
    have hk : k ∉ m.map Prod.fst := fun hm => h3 hm (by simp)
    simp only [List.foldl_cons]
    rw [dictInsert_eq_append m k v hk]
    rw [ih (m ++ [(k, v)]) (by simpa [List.append_assoc] using h)]
    simp

lemma dictOf_keys_mem (l : List (String × String)) (k0 : String) :
    k0 ∈ (dictOf l).map Prod.fst ↔ k0 ∈ l.map Prod.fst := by
  unfold dictOf
  rw [foldl_dictInsert_keys_mem]
  simp

lemma dictOf_keys_nodup (l : List (String × String)) : ((dictOf l).map Prod.fst).Nodup :=
  foldl_dictInsert_keys_nodup l [] (by simp)

lemma dictOf_eq_self (l : List (String × String)) (h : (l.map Prod.fst).Nodup) :
    dictOf l = l := by
  unfold dictOf
  simpa using foldl_dictInsert_eq_append l [] (by simpa)

lemma batchLoop_ok (provider : Transcript → Provider) (pt : String)
    (hpt : pt = "summary" ∨ pt = "topics" ∨ pt = "sentiment") :
    ∀ (ts : List Transcript) (coll : Option MongoCollection),
      ∃ prs, (batchLoop provider pt coll ts).1 = .ok prs ∧
        prs.map Prod.fst = ts.map transcriptId := by
  intro ts
  induction ts with
  | nil => intro coll; exact ⟨[], rfl, rfl⟩
  | cons td rest ih =>
    intro coll
    obtain ⟨v, hv⟩ := analyze_single_result_ok coll (provider td) td pt hpt
    obtain ⟨prs, h1, h2⟩ := ih (analyze_single_transcript coll (provider td) td pt).collection
    refine ⟨(transcriptId td, v) :: prs, ?_, by simp [h2]⟩
    simp only [batchLoop]
    simp only [hv, h1]

/-- C2 counterexample: a batch of two transcripts with the same
(ticker, year, quarter) — hence the same TranscriptId — collapses to a
single entry in the returned mapping (`dict(results)` deduplicates keys),
so the mapping has 1 key while the input list has 2 elements. -/
theorem C2_counterexample :
    (analyze_transcripts none (fun _ _ => .error "boom")
      [⟨"AAPL", 2024, 1, ""⟩, ⟨"AAPL", 2024, 1, ""⟩] "summary" 4).result =
      .ok [("AAPL_2024_Q1", "ERROR: boom")] ∧
    ([⟨"AAPL", 2024, 1, ""⟩, ⟨"AAPL", 2024, 1, ""⟩] : List Transcript).length = 2 :=
  ⟨rfl, rfl⟩

/-- C2 amended: for every valid analysis kind, `analyze_transcripts`
returns a mapping whose keys are exactly the TranscriptIds of the input
transcripts, without duplicates; in particular, when the input
TranscriptIds are pairwise distinct the mapping has exactly as many keys
as the input list has elements (transcripts sharing a TranscriptId
collapse to one entry). -/
theorem C2_batch_key_structure (coll : Option MongoCollection)
    (provider : Transcript → Provider) (ts : List Transcript) (prompt_type : String)
    (n_jobs : Nat)
    (hpt : prompt_type = "summary" ∨ prompt_type = "topics" ∨ prompt_type = "sentiment") :
    ∃ m, (analyze_transcripts coll provider ts prompt_type n_jobs).result = .ok m ∧
      (∀ k, k ∈ m.map Prod.fst ↔ k ∈ ts.map transcriptId) ∧
      (m.map Prod.fst).Nodup ∧
      ((ts.map transcriptId).Nodup → m.length = ts.length) := by
  cases ts with
  | nil => exact ⟨[], rfl, by simp, by simp, by simp⟩
  | cons td rest =>
    obtain ⟨prs, h1, h2⟩ := batchLoop_ok provider prompt_type hpt (td :: rest) coll
    refine ⟨dictOf prs, ?_, ?_, dictOf_keys_nodup prs, ?_⟩
    · unfold analyze_transcripts
      rw [if_neg (by simp)]
      simp [h1, Except.map]
    · intro k
      rw [dictOf_keys_mem, h2]
    · intro hnd
      rw [dictOf_eq_self prs (by rw [h2]; exact hnd)]
      simpa using congrArg List.length h2

/-- C2 witness: `C2_batch_key_structure` on a concrete two-element batch
with distinct tickers. -/
theorem C2_batch_key_structure_witness :
    ∃ m, (analyze_transcripts none (fun _ _ => .ok "v")
        [⟨"AAPL", 2024, 1, ""⟩, ⟨"MSFT", 2024, 1, ""⟩] "summary" 4).result = .ok m ∧
      (∀ k, k ∈ m.map Prod.fst ↔
        k ∈ ([⟨"AAPL", 2024, 1, ""⟩, ⟨"MSFT", 2024, 1, ""⟩] : List Transcript).map
          transcriptId) ∧
      (m.map Prod.fst).Nodup ∧
      ((([⟨"AAPL", 2024, 1, ""⟩, ⟨"MSFT", 2024, 1, ""⟩] : List Transcript).map
          transcriptId).Nodup →
        m.length = ([⟨"AAPL", 2024, 1, ""⟩, ⟨"MSFT", 2024, 1, ""⟩] : List Transcript).length) :=
  C2_batch_key_structure none (fun _ _ => .ok "v")
    [⟨"AAPL", 2024, 1, ""⟩, ⟨"MSFT", 2024, 1, ""⟩] "summary" 4 (Or.inl rfl)

/-! ## Fetcher lemmas -/

lemma dset_lookup_self (d : FDict) (k : String) (v : FVal) : (dset d k v).lookup k = some v := by
  induction d with
  | nil => simp [dset, List.lookup]
  | cons p rest ih =>
    obtain ⟨k', v'⟩ := p
    by_cases h : k' = k
    · simp [dset, h, List.lookup]
    · have hb : (k == k') = false := beq_eq_false_iff_ne.mpr (Ne.symm h)
      simp [dset, h, List.lookup, hb, ih]

lemma dset_lookup_ne (d : FDict) (k k' : String) (v : FVal) (h : k ≠ k') :
    (dset d k' v).lookup k = d.lookup k := by
  have hb : (k == k') = false := beq_eq_false_iff_ne.mpr h
  induction d with
  | nil => simp [dset, List.lookup, hb]
  | cons p rest ih =>
    obtain ⟨k'', v''⟩ := p
    by_cases h2 : k'' = k'
    · simp [dset, h2, List.lookup, hb]
    · simp [dset, h2, List.lookup, ih]

lemma annotated_record_ok (fetch : Fetch) (tk now : String) (y q : Int) (raw : FDict)
    (hf : fetch tk y q = (true, raw)) (he : raw.lookup "error" = none) :
    FetchedRecordOk fetch tk now
      (dset (dset (dset (dset raw "ticker" (.s tk)) "year" (.i y)) "quarter" (.i q))
        "fetch_date" (.s now)) := by
  refine ⟨?_, ?_, y, q, raw, hf, he, ?_, ?_⟩
  · rw [dset_lookup_ne _ _ _ _ (by decide), dset_lookup_ne _ _ _ _ (by decide),
      dset_lookup_ne _ _ _ _ (by decide)]
    exact dset_lookup_self raw "ticker" (.s tk)
  · exact dset_lookup_self _ "fetch_date" (.s now)
  · rw [dset_lookup_ne _ _ _ _ (by decide), dset_lookup_ne _ _ _ _ (by decide)]
    exact dset_lookup_self _ "year" (.i y)
  · rw [dset_lookup_ne _ _ _ _ (by decide)]
    exact dset_lookup_self _ "quarter" (.i q)

lemma lastNLoop_spec (fetch : Fetch) (tk now : String) (cy cq : Int) (n : Nat) :
    ∀ (fuel attempts qf : Nat) (results : List FDict),
      qf = results.length → qf ≤ n →
      (∀ d ∈ results, FetchedRecordOk fetch tk now d) →
      (lastNLoop fetch tk now cy cq n attempts qf results fuel).2 ≤ attempts + fuel ∧
      (lastNLoop fetch tk now cy cq n attempts qf results fuel).1.length ≤ n ∧
      ∀ d ∈ (lastNLoop fetch tk now cy cq n attempts qf results fuel).1,
        FetchedRecordOk fetch tk now d := by
  intro fuel
  induction fuel with
  | zero =>
    intro attempts qf results hlen hle hgood
    exact ⟨by simp [lastNLoop], by simp [lastNLoop, ← hlen, hle], by simpa [lastNLoop] using hgood⟩
  | succ fuel ih =>
    intro attempts qf results hlen hle hgood
    by_cases hqf : qf < n
    · simp only [lastNLoop, if_pos hqf]
      by_cases hcond : (fetch tk (adjustYQ cy (cq - attempts)).1
          (adjustYQ cy (cq - attempts)).2).1 &&
          ((fetch tk (adjustYQ cy (cq - attempts)).1
            (adjustYQ cy (cq - attempts)).2).2.lookup "error").isNone
      · rw [if_pos hcond]
        have hcond' := hcond
        simp only [Bool.and_eq_true] at hcond'
        obtain ⟨hc1, hc2⟩ := hcond'
        have hf : fetch tk (adjustYQ cy (cq - attempts)).1 (adjustYQ cy (cq - attempts)).2 =
            (true, (fetch tk (adjustYQ cy (cq - attempts)).1
              (adjustYQ cy (cq - attempts)).2).2) :=
          Prod.ext hc1 rfl
        have he : (fetch tk (adjustYQ cy (cq - attempts)).1
            (adjustYQ cy (cq - attempts)).2).2.lookup "error" = none :=
          Option.isNone_iff_eq_none.mp hc2
        have hgood' : ∀ d ∈ results ++ [dset (dset (dset (dset
            (fetch tk (adjustYQ cy (cq - attempts)).1
              (adjustYQ cy (cq - attempts)).2).2 "ticker" (.s tk)) "year"
            (.i (adjustYQ cy (cq - attempts)).1)) "quarter"
            (.i (adjustYQ cy (cq - attempts)).2)) "fetch_date" (.s now)],
            FetchedRecordOk fetch tk now d := by
          intro d hd
          rcases List.mem_append.mp hd with hd' | hd'
          · exact hgood d hd'
          · rw [List.mem_singleton.mp hd']
            exact annotated_record_ok fetch tk now _ _ _ hf he
        obtain ⟨ha, hb, hc⟩ := ih (attempts + 1) (qf + 1)
          (results ++ [dset (dset (dset (dset (fetch tk (adjustYQ cy (cq - attempts)).1
            (adjustYQ cy (cq - attempts)).2).2 "ticker" (.s tk)) "year"
            (.i (adjustYQ cy (cq - attempts)).1)) "quarter"
            (.i (adjustYQ cy (cq - attempts)).2)) "fetch_date" (.s now)])
          (by simp [hlen]) hqf hgood'
        exact ⟨by omega, hb, hc⟩
      · rw [if_neg hcond]
        obtain ⟨ha, hb, hc⟩ := ih (attempts + 1) qf results hlen hle hgood
        exact ⟨by omega, hb, hc⟩
    · simp only [lastNLoop, if_neg hqf]
      exact ⟨by omega, by omega, hgood⟩

/-- C8: for every ticker and every n, `get_last_n_quarters` terminates (it
is a total function) after at most `n * 2` fetch attempts, returns at most
`n` records, and every returned record originates from a successful,
error-free fetch and carries the uppercased ticker, its year, its quarter
and the fetch date; missing quarters are silently omitted. -/
theorem C8_fetcher_bounds (fetch : Fetch) (ticker : String) (n : Nat)
    (current_year current_quarter : Int) (fetch_now : String) :
    (get_last_n_quarters fetch ticker n current_year current_quarter fetch_now).2 ≤ n * 2 ∧
    (get_last_n_quarters fetch ticker n current_year current_quarter fetch_now).1.length ≤ n ∧
    ∀ d ∈ (get_last_n_quarters fetch ticker n current_year current_quarter fetch_now).1,
      FetchedRecordOk fetch (pyUpper ticker) fetch_now d := by
  have h := lastNLoop_spec fetch (pyUpper ticker) fetch_now current_year current_quarter n
    (n * 2) 0 0 [] rfl (Nat.zero_le n) (by simp)
  unfold get_last_n_quarters
  exact ⟨by simpa using h.1, h.2.1, h.2.2⟩

end Callpulse
